import Mathlib

/-!
Verification development for the change-detection, classification and
alert-routing pipeline of the `ai-competitor-watchdog` repository.

Python strings are modelled as `List Char`; Python floats appearing in the
pipeline (thresholds, percentages, confidences) are all exactly
representable, so they are modelled as rationals; Python dicts holding
loosely-typed JSON-ish data are modelled by the `PyVal` type or by typed
structures mirroring the keys the code reads (a field of value `none`
models a key that is absent from the dict or stored as Python `None`).
-/

/-- Python strings are modelled as lists of characters. -/
abbrev Str := List Char

/-- Shorthand turning a Lean string literal into the `Str` model. -/
def str (s : String) : Str := s.data

namespace Watchdog

/-- Python truthiness of an optional string (`None` and `""` are falsy). -/
def truthyStr : Option Str → Bool
  | Option.none => false
  | Option.some s => !s.isEmpty

/-- Python `a or b` on an optional string with a string default:
returns `a` when it is truthy, otherwise `b`. -/
def orStr (a : Option Str) (b : Str) : Str :=
  match a with
  | Option.some s => if s.isEmpty then b else s
  | Option.none => b

/-- Python `a or b` on two optional strings (used where the result may
still be falsy). -/
def orOpt (a b : Option Str) : Option Str :=
  if truthyStr a then a else b

/-- Does `pre` occur at the very start of `s`?  Models Python
`s.startswith(pre)` and is the workhorse of the substring search. -/
def listStartsWith : Str → Str → Bool
  | [], _ => true
  | _ :: _, [] => false
  | p :: ps, c :: cs => p == c && listStartsWith ps cs

/-- First occurrence of `sep` in `s`: returns the part strictly before the
occurrence and the part strictly after it, or `none` when `sep` does not
occur.  This models the scanning done by Python `str.split` / `in`. -/
def findSplit (sep : Str) : Str → Option (Str × Str)
  | [] => if listStartsWith sep [] then Option.some ([], []) else Option.none
  | c :: t =>
    if listStartsWith sep (c :: t) then
      Option.some ([], List.drop sep.length (c :: t))
    else
      (findSplit sep t).map (fun p => (c :: p.1, p.2))

/-- Python `sep in s` (substring containment). -/
def pyContains (sep s : Str) : Bool := (findSplit sep s).isSome

/-- Fuel-indexed splitter; the fuel only serves termination and is
irrelevant as soon as it exceeds the length of the string. -/
def pySplitF : Nat → Str → Str → List Str
  | 0, _, s => [s]
  | n + 1, sep, s =>
    match findSplit sep s with
    | Option.none => [s]
    | Option.some (b, a) => b :: pySplitF n sep a

/-- Python `s.split(sep)` for a non-empty separator. -/
def pySplit (sep s : Str) : List Str := pySplitF (s.length + 1) sep s

/-- Python `sep.join(parts)`. -/
def pyJoin (sep : Str) : List Str → Str
  | [] => []
  | [p] => p
  | p :: ps => p ++ sep ++ pyJoin sep ps

/-- Lower-case a string, modelling Python `str.lower` on the ASCII text
this pipeline handles. -/
def lowerStr (s : Str) : Str := s.map Char.toLower

/-- Characters stripped by Python `str.strip()` (the ASCII whitespace
occurring in this pipeline's text). -/
def isPySpace (c : Char) : Bool :=
  c == ' ' || c == '\t' || c == '\n' || c == '\r' || c.toNat == 11 || c.toNat == 12

/-- Python `s.strip()`. -/
def pyStrip (s : Str) : Str :=
  ((s.dropWhile isPySpace).reverse.dropWhile isPySpace).reverse

/-- Python `s.endswith('.')`. -/
def endsWithDot (s : Str) : Bool :=
  match s.getLast? with
  | Option.some c => c == '.'
  | Option.none => false

/-- The separator `". "` on which the pipeline splits summaries into
sentences. -/
def sepDS : Str := ['.', ' ']

/-! The float constants of the pipeline, written as normalized rationals
so that they evaluate inside the kernel (division on `ℚ` does not). -/

/-- The float `0.3`, the quality gate's confidence floor. -/
def q0_3 : ℚ := Rat.mk' 3 10 (by norm_num) (by norm_num)

/-- The float `0.5`, the classifier's default confidence. -/
def q0_5 : ℚ := Rat.mk' 1 2 (by norm_num) (by norm_num)

/-- The float `0.6`, the rule-based fallback's confidence. -/
def q0_6 : ℚ := Rat.mk' 3 5 (by norm_num) (by norm_num)

/-- The float `0.7`, the priority assigner's trust cutoff. -/
def q0_7 : ℚ := Rat.mk' 7 10 (by norm_num) (by norm_num)

/-- Loosely-typed JSON-ish values carried in metadata and structured-diff
dicts. -/
inductive PyVal where
  | vStr (s : Str)
  | vNum (q : ℚ)
  | vBool (b : Bool)
  | vList (xs : List PyVal)
  | vDict (d : List (Str × PyVal))
  | vNone

/-- A Python dict with string keys, as used for metadata bags and
structured diffs. -/
abbrev SDict := List (Str × PyVal)

/-- Key lookup in a dict (`d.get(k)`), first binding wins. -/
def lookupKey (d : SDict) (k : Str) : Option PyVal :=
  (d.find? (fun p => p.1 == k)).map (fun p => p.2)

/-- Python `k in d` for a dict. -/
def containsKey (d : SDict) (k : Str) : Bool :=
  d.any (fun p => p.1 == k)

/-- Python `d.get(k, default)`. -/
def dictGetD (d : SDict) (k : Str) (default : PyVal) : PyVal :=
  match lookupKey d k with
  | Option.some v => v
  | Option.none => default

/-- Python `len` on the sized values that occur in this pipeline (the
argument is always a string, list or dict where the code calls `len`). -/
def pyLen : PyVal → Nat
  | PyVal.vStr s => s.length
  | PyVal.vList xs => xs.length
  | PyVal.vDict d => d.length
  | _ => 0

/-- Python truthiness of an optional dict (`None` and `{}` are falsy). -/
def truthySD : Option SDict → Bool
  | Option.some d => !d.isEmpty
  | Option.none => false

/-! ## Data model (`src/storage/models.py`)

Columns irrelevant to the verified claims (raw HTML, HTTP status, creation
timestamps, crawl frequency, the Slack message id) are omitted; nullable
columns are `Option`-valued.  Timestamps are modelled as natural numbers
counted in days, which suffices for the ordering comparisons the code
performs on them. -/

/-- A competitor row. -/
structure CompetitorRec where
  id : Nat
  name : Str

/-- An asset row. -/
structure AssetRec where
  id : Nat
  competitor_id : Nat
  asset_type : Str
  url : Str
  priority_threshold : Option Str

/-- A snapshot row. -/
structure SnapshotRec where
  id : Nat
  asset_id : Nat
  content_hash : Str
  content_text : Option Str
  metadata_json : Option SDict
  crawl_timestamp : Nat

/-- The dict returned by `DiffEngine._text_diff`; the code elsewhere reads
it back with `.get(key, 0)`, so the numeric fields are optional. -/
structure TextDiff where
  added_count : Option ℚ
  removed_count : Option ℚ
  modified_count : Option ℚ
  added_lines : List Str
  removed_lines : List Str
  total_lines_before : Option ℚ
  total_lines_after : Option ℚ

/-- Read a numeric field of an optional text-diff dict with default 0,
modelling `change_data.get('text_diff', {}).get(key, 0)`. -/
def tdGet (td : Option TextDiff) (f : TextDiff → Option ℚ) : ℚ :=
  match td with
  | Option.some t => (f t).getD 0
  | Option.none => 0

/-- The change-evidence dict built by `DiffEngine.compare_snapshots` and
consumed by `is_significant_change` and `filter_noise`. -/
structure ChangeData where
  before_content : Str
  after_content : Str
  text_diff : Option TextDiff
  structured_diff : Option SDict
  content_change_percentage : Option ℚ

/-- A change row.  `diff_metadata` stores either a structured diff or a
text diff (in Python both are plain dicts). -/
structure ChangeRec where
  id : Nat
  asset_id : Nat
  snapshot_before_id : Nat
  snapshot_after_id : Nat
  change_type : Option Str
  priority : Option Str
  summary : Option Str
  why_it_matters : Option Str
  before_content : Option Str
  after_content : Option Str
  diff_metadata : Option (SDict ⊕ TextDiff)
  detected_at : Nat
  alert_sent : Bool
  alert_sent_at : Option Nat

/-- An alert row (the autoincrement primary key is omitted: nothing reads
it). -/
structure AlertRec where
  change_id : Nat
  priority : Str
  sent_at : Nat
  delivery_type : Str

/-- The result dicts produced by the semantic-analysis adapter and the
classifier.  A field of value `none` models the key being absent from the
dict (or stored as Python `None`); the code only ever reads these keys. -/
structure Classification where
  priority : Option Str
  change_type : Option Str
  summary : Option Str
  why_it_matters : Option Str
  significance : Option Str
  confidence : Option ℚ
  error : Option Str
deriving DecidableEq

/-! ## Diff engine (`src/diff/diff_engine.py`)

`_text_diff` and `_calculate_change_percentage` wrap Python's `difflib`
(`Differ.compare` and `SequenceMatcher.ratio`), and the per-category
`_compare_*` helpers build structured diffs whose contents no verified
claim inspects, so all three are taken as parameters of the environment:
every theorem below quantifies over them, which in particular makes the
fast-path results independent of any diff computation. -/

/-- Environment of `ChangeDetector`/`DiffEngine`: the `difflib`-backed
helpers, the per-category structured comparison, the availability and
outcome of the semantic-analysis call, number formatting for f-strings,
and the current `datetime.utcnow()` clock. -/
structure DetEnv where
  textDiff : Str → Str → TextDiff
  changePct : Str → Str → ℚ
  structuredCmp : SDict → SDict → Str → Option SDict
  hasLLM : Bool
  analyze : Str → Str → Str → Str → Except Str Classification
  fmtNum : ℚ → Str
  now : Nat

/-- `DiffEngine.compare_snapshots`.  `assetType` stands for
`snapshot_before.asset.asset_type`, resolved by the caller. -/
def compareSnapshots (env : DetEnv) (assetType : Str)
    (sb sa : SnapshotRec) : Option ChangeData :=
  if sb.content_hash = sa.content_hash then Option.none
  else if !truthyStr sb.content_text || !truthyStr sa.content_text then Option.none
  else
    let tb := sb.content_text.getD []
    let ta := sa.content_text.getD []
    let diffResult := env.textDiff tb ta
    let structuredDiff : Option SDict :=
      if truthySD sb.metadata_json && truthySD sa.metadata_json then
        env.structuredCmp (sb.metadata_json.getD []) (sa.metadata_json.getD []) assetType
      else Option.none
    Option.some
      { before_content := tb
        after_content := ta
        text_diff := Option.some diffResult
        structured_diff := structuredDiff
        content_change_percentage := Option.some (env.changePct tb ta) }

/-- `DiffEngine.is_significant_change`. -/
def isSignificantChange (changeData : ChangeData) (threshold : ℚ) : Bool :=
  if truthySD changeData.structured_diff then true
  else if changeData.content_change_percentage.getD 0 ≥ threshold then true
  else
    let added := tdGet changeData.text_diff TextDiff.added_count
    let removed := tdGet changeData.text_diff TextDiff.removed_count
    if added + removed > 10 then true
    else false

/-! ## Semantic-analysis adapter (`src/diff/semantic_diff.py`)

The provider call (`_call_openai`/`_call_anthropic` on the prompt built by
`_build_prompt`) either raises or returns a response text; its outcome is
a parameter, as is `json.loads` (returning `none` on `JSONDecodeError`).
The content arguments only feed the prompt, so they cannot influence which
branch is taken. -/

/-- The response-text preprocessing of `SemanticDiff._parse_response`:
strip, then drop the fencing lines of a markdown code block. -/
def processResponseText (responseText : Str) : Str :=
  let t := pyStrip responseText
  if listStartsWith (str "```") t then
    let lines := pySplit (str "\n") t
    if lines.length > 2 then pyJoin (str "\n") ((lines.drop 1).dropLast) else t
  else t

/-- `SemanticDiff._parse_response`. -/
def parseResponse (jsonParse : Str → Option Classification)
    (responseText : Str) : Classification :=
  let t := processResponseText responseText
  match jsonParse t with
  | Option.some result => result
  | Option.none =>
    { priority := Option.none
      change_type := Option.some (str "unknown")
      summary := Option.some (if t.length > 200 then t.take 200 ++ str "..." else t)
      why_it_matters := Option.none
      significance := Option.some (str "medium")
      confidence := Option.none
      error := Option.some (str "Failed to parse JSON response") }

/-- `SemanticDiff.analyze_change`.  `outcome` is the result of the
provider call on the prompt built from the four content arguments. -/
def analyzeChange (jsonParse : Str → Option Classification)
    (outcome : Except Str Str) (beforeContent afterContent assetType url : Str) :
    Classification :=
  match outcome with
  | Except.ok response => parseResponse jsonParse response
  | Except.error e =>
    { priority := Option.none
      change_type := Option.some (str "unknown")
      summary := Option.some (str "Change detected on " ++ assetType ++ str " page")
      why_it_matters := Option.none
      significance := Option.some (str "medium")
      confidence := Option.none
      error := Option.some e }

/-- `SemanticDiff.filter_noise`. -/
def filterNoise (changeData : ChangeData) (semanticAnalysis : Classification) : Bool :=
  let significance := lowerStr (semanticAnalysis.significance.getD (str "medium"))
  let changePercentage := changeData.content_change_percentage.getD 0
  if significance = str "low" ∧ changePercentage < 2 then true
  else
    let changeType := lowerStr (semanticAnalysis.change_type.getD [])
    if changeType = str "other" ∧ changePercentage < 1 then true
    else false

/-! ## Classifier (`src/classifier/change_classifier.py`) -/

/-- The list of valid priorities. -/
def validPriorities : List Str := [str "high", str "medium", str "low"]

/-- `ChangeClassifier._validate_classification`: clamp the priority to the
valid set, truncate the summary to three sentences, clamp the confidence
to [0, 1]. -/
def validateClassification (result : Classification) : Classification :=
  let priority0 := lowerStr (result.priority.getD (str "medium"))
  let priority := if priority0 ∈ validPriorities then priority0 else str "medium"
  let summary := result.summary.getD []
  let sentences := pySplit sepDS summary
  let newSummary : Option Str :=
    if sentences.length > 3 then
      let s := pyJoin sepDS (sentences.take 3)
      Option.some (if endsWithDot s then s else s ++ ['.'])
    else result.summary
  let confidence := result.confidence.getD q0_5
  { result with
      priority := Option.some priority
      summary := newSummary
      confidence := Option.some (max 0 (min 1 confidence)) }

/-- `ChangeClassifier._rule_based_classification_static`.  `fmtNum` models
the f-string rendering of the change percentage. -/
def ruleBasedClassificationStatic (fmtNum : ℚ → Str) (changeData : ChangeData)
    (assetType : Str) (changeType : Option Str) : Classification :=
  let structuredDiff := changeData.structured_diff
  let sdHas (k : Str) : Bool := truthySD structuredDiff && containsKey (structuredDiff.getD []) k
  let priority : Str :=
    if changeType = Option.some (str "pricing") || sdHas (str "tier_changes") then str "high"
    else if changeType = Option.some (str "compliance") || sdHas (str "new_certifications") then
      str "high"
    else if changeType = Option.some (str "feature") && truthySD structuredDiff then
      let featuresAdded := dictGetD (structuredDiff.getD []) (str "features_added") (PyVal.vList [])
      if pyLen featuresAdded > 0 then str "high" else str "medium"
    else if changeType = Option.some (str "changelog") then str "medium"
    else if changeType = Option.some (str "blog") || changeType = Option.some (str "content") then
      str "low"
    else str "medium"
  let changePercentage := changeData.content_change_percentage.getD 0
  { priority := Option.some priority
    change_type := Option.some (orStr changeType assetType)
    summary := Option.some (str "Change detected on " ++ assetType ++ str " page ("
      ++ fmtNum changePercentage ++ str "% change)")
    why_it_matters := Option.some (str "Monitor " ++ assetType
      ++ str " changes for competitive intelligence")
    significance := Option.none
    confidence := Option.some q0_6
    error := Option.none }

/-! ## Priority assigner (`src/classifier/priority_assigner.py`) -/

/-- `PriorityAssigner.HIGH_PRIORITY_KEYWORDS` (verbatim, including the
upper-case entries, which can never match the lower-cased text). -/
def highPriorityKeywords : List Str :=
  [str "pricing", str "price", str "tier", str "plan", str "free tier",
   str "certification", str "compliance", str "SOC", str "ISO", str "GDPR", str "HIPAA",
   str "integration", str "launch", str "release", str "feature"]

/-- `PriorityAssigner.MEDIUM_PRIORITY_KEYWORDS`. -/
def mediumPriorityKeywords : List Str :=
  [str "changelog", str "update", str "news", str "press release",
   str "case study", str "customer", str "logo", str "twitter", str "tweet"]

/-- `PriorityAssigner.LOW_PRIORITY_KEYWORDS`. -/
def lowPriorityKeywords : List Str :=
  [str "homepage", str "landing", str "testimonial", str "blog",
   str "thought leadership", str "industry"]

/-- Python `any(keyword in text for keyword in keywords)`. -/
def anyKeywordIn (keywords : List Str) (text : Str) : Bool :=
  keywords.any (fun k => pyContains k text)

/-- The lower-cased combined text `f"{change_type} {summary} {why_it_matters}"`
over which `_rule_based_priority` matches keywords, including the Python
`or`-fallbacks from the classification dict to the change row. -/
def combinedText (change : ChangeRec) (classification : Classification) : Str :=
  let changeType := lowerStr (orStr classification.change_type (orStr change.change_type []))
  let summary := lowerStr (orStr classification.summary (orStr change.summary []))
  let whyItMatters :=
    lowerStr (orStr classification.why_it_matters (orStr change.why_it_matters []))
  changeType ++ [' '] ++ summary ++ [' '] ++ whyItMatters

/-- The lower-cased `change_type` used by `_rule_based_priority`, with the
Python `or`-fallbacks `classification.get('change_type') or
change.change_type or ''`. -/
def effectiveChangeType (change : ChangeRec) (classification : Classification) : Str :=
  lowerStr (orStr classification.change_type (orStr change.change_type []))

/-- `PriorityAssigner._rule_based_priority`. -/
def ruleBasedPriority (change : ChangeRec) (classification : Classification) : Str :=
  let changeType := effectiveChangeType change classification
  let combined := combinedText change classification
  if anyKeywordIn highPriorityKeywords combined && !anyKeywordIn lowPriorityKeywords combined then
    str "high"
  else if anyKeywordIn mediumPriorityKeywords combined then str "medium"
  else if anyKeywordIn lowPriorityKeywords combined then str "low"
  else if changeType = str "pricing" ∨ changeType = str "compliance" then str "high"
  else if changeType = str "changelog" ∨ changeType = str "news" then str "medium"
  else str "low"

/-- `PriorityAssigner.assign_priority`. -/
def assignPriority (change : ChangeRec) (classification : Classification) : Str :=
  if classification.confidence.getD 0 ≥ q0_7 then
    let priority := lowerStr (classification.priority.getD (str "medium"))
    if priority ∈ validPriorities then priority
    else ruleBasedPriority change classification
  else ruleBasedPriority change classification

/-- The rejection reasons of `PriorityAssigner.validate_quality`; each
constructor stands for the corresponding f-string error message. -/
inductive QualityError where
  | missingSummary
  | tooManySentences (n : Nat)
  | whyMissingOrShort
  | speculativeLanguage
  | lowConfidence (c : ℚ)
  | missingContent

/-- Speculative words rejected by the quality gate. -/
def speculativeWords : List Str :=
  [str "might", str "could", str "possibly", str "perhaps", str "maybe", str "potentially"]

/-- Hedge phrases that make speculative words acceptable. -/
def allowedHedges : List Str := [str "could indicate", str "might suggest"]

/-- `PriorityAssigner.validate_quality`. -/
def validateQuality (change : ChangeRec) (classification : Classification) :
    Bool × Option QualityError :=
  let summaryOpt := orOpt classification.summary change.summary
  if !truthyStr summaryOpt then (false, Option.some QualityError.missingSummary)
  else
    let sentences := pySplit sepDS (summaryOpt.getD [])
    if sentences.length > 3 then
      (false, Option.some (QualityError.tooManySentences sentences.length))
    else
      let whyOpt := orOpt classification.why_it_matters change.why_it_matters
      if !truthyStr whyOpt || (pyStrip (whyOpt.getD [])).length < 10 then
        (false, Option.some QualityError.whyMissingOrShort)
      else
        let whyLower := lowerStr (whyOpt.getD [])
        if anyKeywordIn speculativeWords whyLower
            && !anyKeywordIn allowedHedges whyLower then
          (false, Option.some QualityError.speculativeLanguage)
        else
          let confidence := classification.confidence.getD 0
          if confidence < q0_3 then
            (false, Option.some (QualityError.lowConfidence confidence))
          else if !truthyStr change.before_content || !truthyStr change.after_content then
            (false, Option.some QualityError.missingContent)
          else (true, Option.none)

/-- The ordinal of a priority string, `priority_levels.get(s, default)`. -/
def priorityLevel (s : Str) (default : Nat) : Nat :=
  if s = str "high" then 3
  else if s = str "medium" then 2
  else if s = str "low" then 1
  else default

/-- `PriorityAssigner.should_alert`.  `priorityThreshold = none` models the
Python default `None`; note that the gating block runs only when the
threshold string is truthy (non-`None` and non-empty). -/
def shouldAlert (change : ChangeRec) (classification : Classification)
    (priorityThreshold : Option Str) : Bool :=
  if !(validateQuality change classification).1 then false
  else
    let priority := assignPriority change classification
    match priorityThreshold with
    | Option.none => true
    | Option.some t =>
      if t.isEmpty then true
      else
        let thresholdLevel := priorityLevel (lowerStr t) 2
        let changeLevel := priorityLevel priority 2
        if changeLevel < thresholdLevel then false else true

/-! ## Orchestrator (`src/diff/change_detector.py`)

The transactional store is modelled as in-memory tables plus the next
autoincrement change id. -/

/-- The persistent store as seen by the detector. -/
structure Store where
  assets : List AssetRec
  snapshots : List SnapshotRec
  changes : List ChangeRec
  nextChangeId : Nat

/-- Insert into a list sorted by descending crawl timestamp. -/
def insertByTsDesc (x : SnapshotRec) : List SnapshotRec → List SnapshotRec
  | [] => [x]
  | y :: ys =>
    if x.crawl_timestamp ≥ y.crawl_timestamp then x :: y :: ys
    else y :: insertByTsDesc x ys

/-- Sort snapshots by descending crawl timestamp
(`order_by(Snapshot.crawl_timestamp.desc())`). -/
def sortByTsDesc (l : List SnapshotRec) : List SnapshotRec :=
  l.foldr insertByTsDesc []

/-- `ChangeDetector._infer_change_type`. -/
def inferChangeType (assetType : Str) (changeData : ChangeData) : Str :=
  match changeData.structured_diff with
  | Option.some sd =>
    if sd.isEmpty then assetType
    else if containsKey sd (str "tier_changes") || containsKey sd (str "free_tier_changed") then
      str "pricing"
    else if containsKey sd (str "features_added") || containsKey sd (str "features_removed") then
      str "feature"
    else if containsKey sd (str "new_certifications") || containsKey sd (str "new_standards") then
      str "compliance"
    else if containsKey sd (str "new_entries") then str "changelog"
    else if containsKey sd (str "new_urls") then str "sitemap"
    else if containsKey sd (str "new_posts") then str "blog"
    else assetType
  | Option.none => assetType

/-- `ChangeDetector._generate_basic_summary`. -/
def generateBasicSummary (env : DetEnv) (changeData : ChangeData) (assetType : Str) : Str :=
  let added := tdGet changeData.text_diff TextDiff.added_count
  let removed := tdGet changeData.text_diff TextDiff.removed_count
  let changePct := changeData.content_change_percentage.getD 0
  if added > 0 ∧ removed > 0 then
    str "Content updated on " ++ assetType ++ str " page: " ++ env.fmtNum added
      ++ str " lines added, " ++ env.fmtNum removed ++ str " lines removed ("
      ++ env.fmtNum changePct ++ str "% change)"
  else if added > 0 then
    str "Content added to " ++ assetType ++ str " page: " ++ env.fmtNum added
      ++ str " new lines (" ++ env.fmtNum changePct ++ str "% change)"
  else if removed > 0 then
    str "Content removed from " ++ assetType ++ str " page: " ++ env.fmtNum removed
      ++ str " lines removed (" ++ env.fmtNum changePct ++ str "% change)"
  else
    str "Change detected on " ++ assetType ++ str " page (" ++ env.fmtNum changePct
      ++ str "% change)"

/-- The `diff_metadata_json` value stored by `_create_change_record`:
`change_data.get('structured_diff') or change_data.get('text_diff')`. -/
def diffMetadataOf (changeData : ChangeData) : Option (SDict ⊕ TextDiff) :=
  match changeData.structured_diff with
  | Option.some sd =>
    if sd.isEmpty then changeData.text_diff.map Sum.inr else Option.some (Sum.inl sd)
  | Option.none => changeData.text_diff.map Sum.inr

/-- `ChangeDetector._create_change_record` (the row it inserts). -/
def createChangeRecord (env : DetEnv) (store : Store) (asset : AssetRec)
    (snapshotBefore snapshotAfter : SnapshotRec) (changeData : ChangeData)
    (semanticAnalysis : Option Classification) : ChangeRec :=
  let changeType :=
    match semanticAnalysis with
    | Option.some sem => sem.change_type.getD (str "unknown")
    | Option.none => inferChangeType asset.asset_type changeData
  let summary :=
    match semanticAnalysis with
    | Option.some sem => sem.summary.getD (str "Change detected")
    | Option.none => generateBasicSummary env changeData asset.asset_type
  let whyItMatters :=
    match semanticAnalysis with
    | Option.some sem => sem.why_it_matters.getD []
    | Option.none => str "Change detected on " ++ asset.asset_type ++ str " page"
  { id := store.nextChangeId
    asset_id := asset.id
    snapshot_before_id := snapshotBefore.id
    snapshot_after_id := snapshotAfter.id
    change_type := Option.some changeType
    priority := Option.none
    summary := Option.some summary
    why_it_matters := Option.some whyItMatters
    before_content := Option.some (changeData.before_content.take 10000)
    after_content := Option.some (changeData.after_content.take 10000)
    diff_metadata := diffMetadataOf changeData
    detected_at := env.now
    alert_sent := false
    alert_sent_at := Option.none }

/-- The semantic-analysis step of `detect_changes_for_asset`: the LLM is
consulted only when available and both snapshots carry truthy text; an
`error` outcome covers both the LLM being skipped and `analyze_change`
raising, in both of which cases the detector proceeds without semantic
analysis. -/
def semanticOutcomeFor (env : DetEnv) (a : AssetRec) (snapshotBefore snapshotAfter : SnapshotRec) :
    Except Str Classification :=
  if env.hasLLM && truthyStr snapshotBefore.content_text
      && truthyStr snapshotAfter.content_text then
    env.analyze (snapshotBefore.content_text.getD [])
      (snapshotAfter.content_text.getD []) a.asset_type a.url
  else Except.error []

/-- Persisting a new change row inside `detect_changes_for_asset`
(the commit of `_create_change_record`). -/
def persistChange (env : DetEnv) (store : Store) (a : AssetRec)
    (snapshotBefore snapshotAfter : SnapshotRec) (changeData : ChangeData)
    (semanticAnalysis : Option Classification) : List ChangeRec × Store :=
  let ch := createChangeRecord env store a snapshotBefore snapshotAfter
    changeData semanticAnalysis
  ([ch], { store with changes := store.changes ++ [ch],
                      nextChangeId := store.nextChangeId + 1 })

/-- The tail of `detect_changes_for_asset` once change evidence is in
hand: the significance check, best-effort semantic analysis with the noise
filter, and persistence. -/
def detectWithEvidence (env : DetEnv) (store : Store) (a : AssetRec)
    (snapshotBefore snapshotAfter : SnapshotRec) (changeData : ChangeData) :
    List ChangeRec × Store :=
  if !isSignificantChange changeData 5 then ([], store)
  else
    match semanticOutcomeFor env a snapshotBefore snapshotAfter with
    | Except.ok sem =>
      if filterNoise changeData sem then ([], store)
      else persistChange env store a snapshotBefore snapshotAfter changeData
        (Option.some sem)
    | Except.error _ =>
      persistChange env store a snapshotBefore snapshotAfter changeData Option.none

/-- The tail of `detect_changes_for_asset` once the adjacent snapshot pair
is in hand: the existing-change check, then the diff. -/
def detectOnPair (env : DetEnv) (store : Store) (a : AssetRec)
    (snapshotBefore snapshotAfter : SnapshotRec) : List ChangeRec × Store :=
  if (store.changes.find? (fun c => c.snapshot_after_id == snapshotAfter.id)).isSome then
    ([], store)
  else
    match compareSnapshots env a.asset_type snapshotBefore snapshotAfter with
    | Option.none => ([], store)
    | Option.some changeData =>
      detectWithEvidence env store a snapshotBefore snapshotAfter changeData

/-- `detect_changes_for_asset` on the reloaded asset row: fetch the two
most recent snapshots and hand the pair over, stopping when fewer than two
exist. -/
def detectForReloaded (env : DetEnv) (store : Store) (a : AssetRec) :
    List ChangeRec × Store :=
  match (sortByTsDesc (store.snapshots.filter (fun sn => sn.asset_id == a.id))).take 2 with
  | [snapshotAfter, snapshotBefore] => detectOnPair env store a snapshotBefore snapshotAfter
  | _ => ([], store)

/-- `ChangeDetector.detect_changes_for_asset`: reload the asset, take its
two most recent snapshots, stop if a change already exists for the most
recent one, diff, check significance, run best-effort semantic analysis
and the noise filter, and persist the new change. -/
def detectChangesForAsset (env : DetEnv) (store : Store) (asset : AssetRec) :
    List ChangeRec × Store :=
  match store.assets.find? (fun a => a.id == asset.id) with
  | Option.none => ([], store)
  | Option.some a => detectForReloaded env store a

/-- The idempotence invariant of the data model: no two change rows point
at the same "after" snapshot. -/
def AtMostOnePerAfter (changes : List ChangeRec) : Prop :=
  changes.Pairwise (fun c1 c2 => c1.snapshot_after_id ≠ c2.snapshot_after_id)

/-! ## Alert manager (`src/alerting/alert_manager.py`)

Transmissions to the Slack sink are returned explicitly so that theorems
can talk about what was sent. -/

/-- The payload handed to `SlackIntegration.send_alert`. -/
structure AlertPayload where
  company : Str
  priority : Str
  asset : Str
  change_type : Str
  summary : Str
  why_it_matters : Str
  url : Str
  timestamp : Option Nat

/-- The persistent store as seen by the alert manager. -/
structure AlertStore where
  competitors : List CompetitorRec
  assets : List AssetRec
  changes : List ChangeRec
  alerts : List AlertRec

/-- Environment of `AlertManager`: Slack availability, the sink's
success/failure response to a single alert, and the clock. -/
structure AlertEnv where
  hasSlack : Bool
  sendAlertOk : AlertPayload → Bool
  now : Nat

/-- `AlertManager.get_pending_alerts`: unsent, classified changes whose
asset row exists (the `join(Asset)`), optionally filtered by priority and
detection time. -/
def getPendingAlerts (store : AlertStore) (priority : Option Str) (since : Option Nat) :
    List ChangeRec :=
  store.changes.filter (fun c =>
    c.alert_sent == false
    && c.priority.isSome
    && store.assets.any (fun a => a.id == c.asset_id)
    && (match priority with
        | Option.some p => c.priority == Option.some p
        | Option.none => true)
    && (match since with
        | Option.some t => c.detected_at ≥ t
        | Option.none => true))

/-- `AlertManager.send_immediate_alert`.  Returns the Python result, the
updated store and the payloads pushed to the Slack sink.  Note that the
code checks only `change.priority`, never `change.alert_sent`. -/
def sendImmediateAlert (env : AlertEnv) (store : AlertStore) (change : ChangeRec) :
    Bool × AlertStore × List AlertPayload :=
  if !env.hasSlack then (false, store, [])
  else if change.priority ≠ Option.some (str "high") then (false, store, [])
  else
    match store.changes.find? (fun c => c.id == change.id) with
    | Option.none => (false, store, [])
    | Option.some ch =>
      match store.assets.find? (fun a => a.id == ch.asset_id) with
      | Option.none => (false, store, [])
      | Option.some asset =>
        match store.competitors.find? (fun co => co.id == asset.competitor_id) with
        | Option.none => (false, store, [])
        | Option.some competitor =>
          let payload : AlertPayload :=
            { company := competitor.name
              priority := orStr ch.priority (str "medium")
              asset := asset.asset_type
              change_type := orStr ch.change_type (str "unknown")
              summary := orStr ch.summary (str "Change detected")
              why_it_matters :=
                orStr ch.why_it_matters (str "Monitor for competitive intelligence")
              url := asset.url
              timestamp := Option.some ch.detected_at }
          let success := env.sendAlertOk payload
          if success then
            let newAlert : AlertRec :=
              { change_id := ch.id
                priority := orStr ch.priority (str "medium")
                sent_at := env.now
                delivery_type := str "immediate" }
            let store' : AlertStore :=
              { store with
                  alerts := store.alerts ++ [newAlert]
                  changes := store.changes.map (fun c =>
                    if c.id == ch.id then
                      { c with alert_sent := true, alert_sent_at := Option.some env.now }
                    else c) }
            (true, store', [payload])
          else (false, store, [payload])

/-! ## Concrete instances used by the closed-form checks below -/

/-- The float `0.9`, a confidence used in concrete scenario checks. -/
def q0_9 : ℚ := Rat.mk' 9 10 (by norm_num) (by norm_num)

/-- A detector environment with trivial diff helpers and no LLM. -/
def envW : DetEnv :=
  { textDiff := fun _ _ =>
      ⟨Option.some 0, Option.some 0, Option.some 0, [], [], Option.some 1, Option.some 1⟩
    changePct := fun _ _ => 0
    structuredCmp := fun _ _ _ => Option.none
    hasLLM := false
    analyze := fun _ _ _ _ => Except.error []
    fmtNum := fun _ => []
    now := 7 }

/-- An older snapshot of asset 1. -/
def snapOld : SnapshotRec := ⟨1, 1, str "h1", Option.some (str "old text"), Option.none, 1⟩

/-- A newer snapshot of asset 1, with the same content hash. -/
def snapNew : SnapshotRec := ⟨2, 1, str "h1", Option.some (str "new text"), Option.none, 2⟩

/-- A monitored pricing asset. -/
def assetW : AssetRec := ⟨1, 1, str "pricing", str "https://acme.example/pricing", Option.none⟩

/-- A change already recorded for the newest snapshot of asset 1. -/
def changeW : ChangeRec :=
  ⟨1, 1, 1, 2, Option.some (str "pricing"), Option.none, Option.some (str "S"),
    Option.some (str "W"), Option.some (str "a"), Option.some (str "b"), Option.none, 3,
    false, Option.none⟩

/-- A detector store where the latest snapshot pair is already processed. -/
def storeW : Store := ⟨[assetW], [snapOld, snapNew], [changeW], 2⟩

/-- A change row with before/after content, to be classified. -/
def chGate : ChangeRec :=
  ⟨5, 1, 1, 2, Option.none, Option.none, Option.none, Option.none,
    Option.some (str "before text"), Option.some (str "after text"), Option.none, 3,
    false, Option.none⟩

/-- A confident classification stating priority low. -/
def clLow : Classification :=
  ⟨Option.some (str "low"), Option.none, Option.some (str "Competitor updated page"),
    Option.some (str "Signals a repositioning to watch"), Option.none, Option.some q0_9,
    Option.none⟩

/-- A confident classification stating priority medium. -/
def clMed : Classification :=
  ⟨Option.some (str "medium"), Option.none, Option.some (str "Competitor updated page"),
    Option.some (str "Signals a repositioning to watch"), Option.none, Option.some q0_9,
    Option.none⟩

/-- A confident classification stating priority high. -/
def clHigh : Classification :=
  ⟨Option.some (str "high"), Option.none, Option.some (str "Competitor updated page"),
    Option.some (str "Signals a repositioning to watch"), Option.none, Option.some q0_9,
    Option.none⟩

/-- A classification whose summary has four sentences. -/
def clTrunc : Classification :=
  ⟨Option.none, Option.none, Option.some (str "A. B. C. D"), Option.none, Option.none,
    Option.none, Option.none⟩

/-- Change evidence carrying a non-empty structured diff. -/
def cdSD : ChangeData :=
  ⟨str "p", str "q", Option.none, Option.some [(str "new_urls", PyVal.vList [])],
    Option.some 0⟩

/-- Change evidence whose change percentage is the float 0.5. -/
def cdNoise : ChangeData := ⟨str "p", str "q", Option.none, Option.none, Option.some q0_5⟩

/-- A semantic result judging the change low-significance, category other. -/
def semNoise : Classification :=
  ⟨Option.none, Option.some (str "other"), Option.none, Option.none,
    Option.some (str "low"), Option.none, Option.none⟩

/-- An alerting environment where Slack is up and every send succeeds. -/
def envB : AlertEnv := ⟨true, fun _ => true, 9⟩

/-- A competitor row. -/
def compB : CompetitorRec := ⟨1, str "Acme"⟩

/-- The asset of the already-delivered change below. -/
def assetB : AssetRec := ⟨1, 1, str "pricing", str "https://acme.example/pricing", Option.none⟩

/-- A high-priority change that has already been delivered (sent at 5). -/
def chB : ChangeRec :=
  ⟨1, 1, 1, 2, Option.some (str "pricing"), Option.some (str "high"),
    Option.some (str "Tier price raised"), Option.some (str "Competitive pricing signal"),
    Option.some (str "a"), Option.some (str "b"), Option.none, 3, true, Option.some 5⟩

/-- An alerting store where `chB` was already delivered once. -/
def storeB : AlertStore := ⟨[compB], [assetB], [chB], [⟨1, str "high", 5, str "immediate"⟩]⟩

/-! ## Properties of the string model -/

theorem sepDS_ne_nil : sepDS ≠ [] := by simp [sepDS]

theorem startsWith_nil_iff (sep : Str) : listStartsWith sep [] = true ↔ sep = [] := by
  cases sep <;> simp [listStartsWith]

theorem startsWith_iff_append (p : Str) :
    ∀ s, listStartsWith p s = true ↔ ∃ u, s = p ++ u := by
  induction p with
  | nil => intro s; simp [listStartsWith]
  | cons x ps ih =>
    intro s
    cases s with
    | nil => simp [listStartsWith]
    | cons c cs =>
      simp only [listStartsWith, Bool.and_eq_true, beq_iff_eq, ih cs, List.cons_append,
        List.cons.injEq]
      constructor
      · rintro ⟨rfl, u, rfl⟩; exact ⟨u, rfl, rfl⟩
      · rintro ⟨u, rfl, rfl⟩; exact ⟨rfl, u, rfl⟩

theorem findSplit_nil (sep : Str) (hsep : sep ≠ []) : findSplit sep [] = Option.none := by
  simp [findSplit, startsWith_nil_iff, hsep]

theorem findSplit_shrink (sep : Str) (hsep : sep ≠ []) :
    ∀ s b a, findSplit sep s = Option.some (b, a) → a.length < s.length := by
  intro s
  induction s with
  | nil => intro b a h; rw [findSplit_nil sep hsep] at h; exact absurd h (by simp)
  | cons c t ih =>
    intro b a h
    have hsl : 1 ≤ sep.length := List.length_pos.mpr hsep
    cases hs : listStartsWith sep (c :: t) with
    | true =>
      simp only [findSplit, hs, if_true, Option.some.injEq, Prod.mk.injEq] at h
      have ha : a = List.drop sep.length (c :: t) := h.2.symm
      subst ha
      simp only [List.length_drop, List.length_cons]
      omega
    | false =>
      simp only [findSplit, hs, Bool.false_eq_true, if_false, Option.map_eq_some'] at h
      obtain ⟨⟨b', a'⟩, hf, he⟩ := h
      obtain ⟨-, rfl⟩ := Prod.mk.injEq .. |>.mp he
      have := ih b' a' hf
      simp only [List.length_cons]
      omega

theorem findSplit_cons_none_iff (sep : Str) (c : Char) (t : Str) :
    findSplit sep (c :: t) = Option.none ↔
      listStartsWith sep (c :: t) = false ∧ findSplit sep t = Option.none := by
  cases hs : listStartsWith sep (c :: t) with
  | true => simp [findSplit, hs]
  | false => simp [findSplit, hs, Option.map_eq_none']

theorem startsWith_sepDS_iff (c : Char) (rest : Str) :
    listStartsWith sepDS (c :: rest) = true ↔ c = '.' ∧ ∃ u, rest = ' ' :: u := by
  cases rest with
  | nil => simp [listStartsWith, sepDS]
  | cons d t =>
    simp only [sepDS, listStartsWith, Bool.and_eq_true, beq_iff_eq, and_true]
    constructor
    · rintro ⟨h1, h2⟩; exact ⟨h1.symm, t, by rw [h2]⟩
    · rintro ⟨rfl, u, hu⟩
      obtain ⟨h1, -⟩ := List.cons.injEq .. |>.mp hu
      exact ⟨rfl, h1.symm⟩

theorem not_startsWith_sepDS_append (c : Char) (p z : Str)
    (hz : ∀ u, z ≠ ' ' :: u) (h : listStartsWith sepDS (c :: p) = false) :
    listStartsWith sepDS (c :: (p ++ z)) = false := by
  cases hcon : listStartsWith sepDS (c :: (p ++ z)) with
  | false => rfl
  | true =>
    exfalso
    obtain ⟨rfl, u, hu⟩ := (startsWith_sepDS_iff _ _).mp hcon
    cases p with
    | nil => rw [List.nil_append] at hu; exact hz u hu
    | cons d p' =>
      obtain ⟨rfl, -⟩ := List.cons.injEq .. |>.mp hu
      simp [sepDS, listStartsWith] at h

theorem findSplit_sepDS_append (p r : Str) (hp : findSplit sepDS p = Option.none) :
    findSplit sepDS (p ++ (sepDS ++ r)) = Option.some (p, r) := by
  induction p with
  | nil =>
    show findSplit sepDS ('.' :: (' ' :: r)) = Option.some ([], r)
    simp [findSplit, listStartsWith, sepDS]
  | cons c p' ih =>
    obtain ⟨hns, hp'⟩ := (findSplit_cons_none_iff sepDS c p').mp hp
    have hns2 : listStartsWith sepDS (c :: (p' ++ (sepDS ++ r))) = false :=
      not_startsWith_sepDS_append c p' (sepDS ++ r)
        (by intro u hcontra; simp [sepDS] at hcontra) hns
    show findSplit sepDS (c :: (p' ++ (sepDS ++ r))) = Option.some (c :: p', r)
    simp [findSplit, hns2, ih hp']

theorem findSplit_sepDS_concat_dot (p : Str) (hp : findSplit sepDS p = Option.none) :
    findSplit sepDS (p ++ ['.']) = Option.none := by
  induction p with
  | nil => decide
  | cons c p' ih =>
    obtain ⟨hns, hp'⟩ := (findSplit_cons_none_iff sepDS c p').mp hp
    have hns2 : listStartsWith sepDS (c :: (p' ++ ['.'])) = false :=
      not_startsWith_sepDS_append c p' ['.']
        (by intro u hcontra; simp at hcontra) hns
    show findSplit sepDS (c :: (p' ++ ['.'])) = Option.none
    rw [findSplit_cons_none_iff]
    exact ⟨hns2, ih hp'⟩

theorem findSplit_decomp (sep : Str) :
    ∀ s b a, findSplit sep s = Option.some (b, a) → s = b ++ sep ++ a := by
  intro s
  induction s with
  | nil =>
    intro b a h
    cases hsep : listStartsWith sep [] with
    | false => simp [findSplit, hsep] at h
    | true =>
      have hse := (startsWith_nil_iff sep).mp hsep
      subst hse
      simp only [findSplit, listStartsWith, if_true, Option.some.injEq, Prod.mk.injEq] at h
      obtain ⟨rfl, rfl⟩ := h
      rfl
  | cons c t ih =>
    intro b a h
    cases hs : listStartsWith sep (c :: t) with
    | true =>
      obtain ⟨u, hu⟩ := (startsWith_iff_append sep (c :: t)).mp hs
      simp only [findSplit, hs, if_true, Option.some.injEq, Prod.mk.injEq] at h
      obtain ⟨hb, ha⟩ := h
      subst hb
      rw [hu, List.drop_left] at ha
      rw [hu, ← ha]
      simp
    | false =>
      simp only [findSplit, hs, Bool.false_eq_true, if_false, Option.map_eq_some'] at h
      obtain ⟨⟨b', a'⟩, hf, he⟩ := h
      have hb : c :: b' = b := congrArg Prod.fst he
      have ha : a' = a := congrArg Prod.snd he
      subst hb
      subst ha
      have ht := ih b' a' hf
      rw [ht]
      simp

theorem findSplit_fst_free :
    ∀ s b a, findSplit sepDS s = Option.some (b, a) → findSplit sepDS b = Option.none := by
  intro s
  induction s with
  | nil => intro b a h; rw [findSplit_nil sepDS sepDS_ne_nil] at h; exact absurd h (by simp)
  | cons c t ih =>
    intro b a h
    cases hs : listStartsWith sepDS (c :: t) with
    | true =>
      simp only [findSplit, hs, if_true, Option.some.injEq, Prod.mk.injEq] at h
      rw [← h.1]
      exact findSplit_nil sepDS sepDS_ne_nil
    | false =>
      simp only [findSplit, hs, Bool.false_eq_true, if_false, Option.map_eq_some'] at h
      obtain ⟨⟨b', a'⟩, hf, he⟩ := h
      obtain ⟨hb, -⟩ := Prod.mk.injEq .. |>.mp he
      subst hb
      have hfree' := ih b' a' hf
      have hdec := findSplit_decomp sepDS t b' a' hf
      rw [findSplit_cons_none_iff]
      refine ⟨?_, hfree'⟩
      cases hsb : listStartsWith sepDS (c :: b') with
      | false => rfl
      | true =>
        exfalso
        obtain ⟨rfl, u, hu⟩ := (startsWith_sepDS_iff _ _).mp hsb
        subst hu
        rw [hdec] at hs
        simp [sepDS, listStartsWith] at hs

theorem pySplitF_congr (sep : Str) (hsep : sep ≠ []) :
    ∀ n m s, s.length < n → s.length < m → pySplitF n sep s = pySplitF m sep s := by
  intro n
  induction n with
  | zero => intro m s h; omega
  | succ n ih =>
    intro m s hn hm
    cases m with
    | zero => omega
    | succ m =>
      cases hf : findSplit sep s with
      | none => simp [pySplitF, hf]
      | some p =>
        obtain ⟨b, a⟩ := p
        have hlt := findSplit_shrink sep hsep s b a hf
        simp only [pySplitF, hf]
        exact congrArg (List.cons b) (ih m a (by omega) (by omega))

theorem pySplit_eq_none (sep s : Str) (hf : findSplit sep s = Option.none) :
    pySplit sep s = [s] := by
  simp [pySplit, pySplitF, hf]

theorem pySplit_eq_some (sep s b a : Str) (hsep : sep ≠ [])
    (hf : findSplit sep s = Option.some (b, a)) :
    pySplit sep s = b :: pySplit sep a := by
  have hlt := findSplit_shrink sep hsep s b a hf
  simp only [pySplit, pySplitF, hf]
  exact congrArg (List.cons b)
    (pySplitF_congr sep hsep s.length (a.length + 1) a (by omega) (by omega))

theorem pySplit_mem_free (s : Str) :
    ∀ x ∈ pySplit sepDS s, findSplit sepDS x = Option.none := by
  have main : ∀ n s, s.length < n → ∀ x ∈ pySplit sepDS s, findSplit sepDS x = Option.none := by
    intro n
    induction n with
    | zero => intro s h; omega
    | succ n ih =>
      intro s hs x hx
      cases hf : findSplit sepDS s with
      | none =>
        rw [pySplit_eq_none sepDS s hf] at hx
        simp only [List.mem_singleton] at hx
        subst hx
        exact hf
      | some p =>
        obtain ⟨b, a⟩ := p
        have hlt := findSplit_shrink sepDS sepDS_ne_nil s b a hf
        rw [pySplit_eq_some sepDS s b a sepDS_ne_nil hf] at hx
        rcases List.mem_cons.mp hx with hx | hx
        · subst hx; exact findSplit_fst_free s x a hf
        · exact ih a (by omega) x hx
  exact main (s.length + 1) s (by omega)

theorem pySplit_sepDS_join3 (a b c : Str)
    (ha : findSplit sepDS a = Option.none) (hb : findSplit sepDS b = Option.none)
    (hc : findSplit sepDS c = Option.none) :
    pySplit sepDS (a ++ (sepDS ++ (b ++ (sepDS ++ c)))) = [a, b, c] := by
  rw [pySplit_eq_some sepDS _ a (b ++ (sepDS ++ c)) sepDS_ne_nil
    (findSplit_sepDS_append a (b ++ (sepDS ++ c)) ha)]
  rw [pySplit_eq_some sepDS _ b c sepDS_ne_nil (findSplit_sepDS_append b c hb)]
  rw [pySplit_eq_none sepDS c hc]

theorem pyJoin_three (sep a b c : Str) :
    pyJoin sep [a, b, c] = a ++ (sep ++ (b ++ (sep ++ c))) := by
  simp [pyJoin, List.append_assoc]

theorem endsWithDot_concat (s : Str) : endsWithDot (s ++ ['.']) = true := by
  simp [endsWithDot, List.getLast?_concat]

/-! ## Claim theorems -/

/-- C7.  Summary truncation: a classification result whose summary splits
into more than 3 sentences on `". "` is normalized to exactly the first 3
sentences, rendered with `". "` between them and a trailing period
restored, so the normalized summary splits into exactly 3 sentences and
ends with a period; summaries of 3 or fewer sentences are left
unchanged. -/
theorem classifier_summary_truncation (cl : Classification) (s : Str)
    (hs : cl.summary = Option.some s) :
    (∀ s1 s2 s3 rest, pySplit sepDS s = s1 :: s2 :: s3 :: rest → rest ≠ [] →
      ∃ x, (x = s3 ∨ x = s3 ++ ['.'])
        ∧ (validateClassification cl).summary = Option.some (s1 ++ (sepDS ++ (s2 ++ (sepDS ++ x))))
        ∧ pySplit sepDS (s1 ++ (sepDS ++ (s2 ++ (sepDS ++ x)))) = [s1, s2, x]
        ∧ endsWithDot (s1 ++ (sepDS ++ (s2 ++ (sepDS ++ x)))) = true)
    ∧ ((pySplit sepDS s).length ≤ 3 → (validateClassification cl).summary = Option.some s) := by
  constructor
  · intro s1 s2 s3 rest hsplit hrest
    have hrl : 0 < rest.length := List.length_pos.mpr hrest
    have hlen : (pySplit sepDS s).length > 3 := by
      rw [hsplit]; simp only [List.length_cons]; omega
    have htake : (pySplit sepDS s).take 3 = [s1, s2, s3] := by
      rw [hsplit]; rfl
    have hsum : (validateClassification cl).summary =
        Option.some (if endsWithDot (pyJoin sepDS [s1, s2, s3]) then
          pyJoin sepDS [s1, s2, s3] else pyJoin sepDS [s1, s2, s3] ++ ['.']) := by
      simp only [validateClassification, hs, Option.getD_some, if_pos hlen, htake]
    have h1 : findSplit sepDS s1 = Option.none :=
      pySplit_mem_free s s1 (by rw [hsplit]; exact List.mem_cons_self _ _)
    have h2 : findSplit sepDS s2 = Option.none :=
      pySplit_mem_free s s2 (by rw [hsplit]; simp)
    have h3 : findSplit sepDS s3 = Option.none :=
      pySplit_mem_free s s3 (by rw [hsplit]; simp)
    cases hdot : endsWithDot (pyJoin sepDS [s1, s2, s3]) with
    | true =>
      refine ⟨s3, Or.inl rfl, ?_, pySplit_sepDS_join3 s1 s2 s3 h1 h2 h3, ?_⟩
      · rw [hsum, if_pos hdot, pyJoin_three]
      · rw [← pyJoin_three]; exact hdot
    | false =>
      have hj : pyJoin sepDS [s1, s2, s3] ++ ['.']
          = s1 ++ (sepDS ++ (s2 ++ (sepDS ++ (s3 ++ ['.'])))) := by
        rw [pyJoin_three]; simp [List.append_assoc]
      refine ⟨s3 ++ ['.'], Or.inr rfl, ?_, ?_, ?_⟩
      · rw [hsum, if_neg (by simp [hdot]), hj]
      · exact pySplit_sepDS_join3 s1 s2 (s3 ++ ['.']) h1 h2 (findSplit_sepDS_concat_dot s3 h3)
      · rw [← hj, pyJoin_three]
        have : s1 ++ (sepDS ++ (s2 ++ (sepDS ++ s3))) ++ ['.']
            = (s1 ++ (sepDS ++ (s2 ++ (sepDS ++ s3)))) ++ ['.'] := rfl
        rw [this]
        exact endsWithDot_concat _
  · intro hle
    simp only [validateClassification, hs, Option.getD_some, if_neg (by omega : ¬ (pySplit sepDS s).length > 3)]

/-- Witness for C7 at the four-sentence summary "A. B. C. D". -/
theorem classifier_summary_truncation_witness :
    ∃ x, (x = str "C" ∨ x = str "C" ++ ['.'])
      ∧ (validateClassification clTrunc).summary
          = Option.some (str "A" ++ (sepDS ++ (str "B" ++ (sepDS ++ x))))
      ∧ pySplit sepDS (str "A" ++ (sepDS ++ (str "B" ++ (sepDS ++ x)))) = [str "A", str "B", x]
      ∧ endsWithDot (str "A" ++ (sepDS ++ (str "B" ++ (sepDS ++ x)))) = true :=
  (classifier_summary_truncation clTrunc (str "A. B. C. D") rfl).1
    (str "A") (str "B") (str "C") [str "D"] (by decide) (by decide)

/-- C3.  Fast path of `compare_snapshots`: equal content hashes, or a
missing (falsy) extracted text on either side, yield `none` — for every
choice of the diff helpers, so no diff work can influence the result. -/
theorem compare_snapshots_fast_path (env : DetEnv) (assetType : Str) (sb sa : SnapshotRec)
    (h : sb.content_hash = sa.content_hash ∨ truthyStr sb.content_text = false
      ∨ truthyStr sa.content_text = false) :
    compareSnapshots env assetType sb sa = Option.none := by
  unfold compareSnapshots
  rcases h with h | h | h
  · rw [if_pos h]
  · by_cases hh : sb.content_hash = sa.content_hash
    · rw [if_pos hh]
    · rw [if_neg hh, if_pos (by simp [h])]
  · by_cases hh : sb.content_hash = sa.content_hash
    · rw [if_pos hh]
    · rw [if_neg hh, if_pos (by simp [h])]

/-- Witness for C3 at two snapshots with identical hashes. -/
theorem compare_snapshots_fast_path_witness :
    compareSnapshots envW (str "pricing") snapOld snapNew = Option.none :=
  compare_snapshots_fast_path envW (str "pricing") snapOld snapNew (Or.inl rfl)

/-- C4.  `is_significant_change` is true exactly when a non-empty
structured diff is present, or the change percentage reaches the
threshold, or more than 10 lines were added plus removed; in particular a
non-empty structured diff forces significance regardless of the
percentage. -/
theorem is_significant_iff (cd : ChangeData) (threshold : ℚ) :
    isSignificantChange cd threshold = true ↔
      (∃ sd, cd.structured_diff = Option.some sd ∧ sd ≠ [])
      ∨ cd.content_change_percentage.getD 0 ≥ threshold
      ∨ tdGet cd.text_diff TextDiff.added_count
          + tdGet cd.text_diff TextDiff.removed_count > 10 := by
  unfold isSignificantChange
  by_cases h1 : truthySD cd.structured_diff = true
  · rw [if_pos h1]
    refine iff_of_true rfl (Or.inl ?_)
    cases hsd : cd.structured_diff with
    | none => rw [hsd] at h1; simp [truthySD] at h1
    | some sd =>
      rw [hsd] at h1
      refine ⟨sd, rfl, ?_⟩
      simp only [truthySD, Bool.not_eq_true'] at h1
      simpa using h1
  · rw [if_neg h1]
    have hno : ¬ ∃ sd, cd.structured_diff = Option.some sd ∧ sd ≠ [] := by
      rintro ⟨sd, hsd, hne⟩
      rw [hsd] at h1
      simp only [truthySD, Bool.not_eq_true, Bool.not_eq_false'] at h1
      exact hne (by simpa using h1)
    by_cases h2 : cd.content_change_percentage.getD 0 ≥ threshold
    · rw [if_pos h2]
      exact iff_of_true rfl (Or.inr (Or.inl h2))
    · rw [if_neg h2]
      by_cases h3 : tdGet cd.text_diff TextDiff.added_count
          + tdGet cd.text_diff TextDiff.removed_count > 10
      · rw [if_pos h3]
        exact iff_of_true rfl (Or.inr (Or.inr h3))
      · rw [if_neg h3]
        exact iff_of_false (by simp) (by rintro (h | h | h); exacts [hno h, h2 h, h3 h])

/-- Witness for C4 at evidence carrying a non-empty structured diff and a
zero change percentage. -/
theorem is_significant_witness : isSignificantChange cdSD 5 = true :=
  (is_significant_iff cdSD 5).mpr (Or.inl ⟨_, rfl, by simp⟩)

/-- C8.  `filter_noise` is true exactly when the semantic significance is
"low" with change percentage below 2.0, or the semantic category is
"other" with change percentage below 1.0. -/
theorem filter_noise_iff (cd : ChangeData) (sem : Classification) :
    filterNoise cd sem = true ↔
      (lowerStr (sem.significance.getD (str "medium")) = str "low"
        ∧ cd.content_change_percentage.getD 0 < 2)
      ∨ (lowerStr (sem.change_type.getD []) = str "other"
        ∧ cd.content_change_percentage.getD 0 < 1) := by
  simp only [filterNoise]
  split_ifs with h1 h2
  · exact iff_of_true rfl (Or.inl h1)
  · exact iff_of_true rfl (Or.inr h2)
  · exact iff_of_false (by simp) (by tauto)

/-- Witness for C8 at the spec's scenario: significance "low", category
"other", change percentage 0.5. -/
theorem filter_noise_witness : filterNoise cdNoise semNoise = true :=
  (filter_noise_iff cdNoise semNoise).mpr (Or.inl ⟨by decide, by decide⟩)

/-- Counterexample to C5 as stated: for the configured empty-string
threshold, which is unrecognized and so should default to medium = 2,
`should_alert` performs no gating at all — a low-priority change passing
the quality gate is alerted (result `true`) although its ordinal 1 is
below the default threshold ordinal 2. -/
theorem should_alert_empty_threshold_counterexample :
    shouldAlert chGate clLow (Option.some []) = true
    ∧ (validateQuality chGate clLow).1 = true
    ∧ assignPriority chGate clLow = str "low"
    ∧ priorityLevel (assignPriority chGate clLow) 2 < priorityLevel (lowerStr []) 2 := by
  decide

/-- C5 (amended to non-empty configured thresholds).  For every change
passing the quality gate and every configured non-empty threshold string,
`should_alert` suppresses exactly when the ordinal of the assigned
priority (high = 3, medium = 2, low = 1) is below the ordinal of the
lower-cased threshold, an unrecognized threshold defaulting to 2. -/
theorem should_alert_threshold_gating (change : ChangeRec) (cl : Classification) (t : Str)
    (ht : t ≠ []) (hq : (validateQuality change cl).1 = true) :
    (shouldAlert change cl (Option.some t) = false ↔
      priorityLevel (assignPriority change cl) 2 < priorityLevel (lowerStr t) 2) := by
  have hte : t.isEmpty = false := by cases t with | nil => simp at ht | cons c cs => rfl
  simp only [shouldAlert, hq, Bool.not_true, Bool.false_eq_true, if_false, hte]
  split_ifs with h
  · exact iff_of_true rfl h
  · exact iff_of_false (by simp) h

/-- Witness for C5's amended statement at the spec's scenario: stated
priority medium at confidence 0.9 against threshold "high" is
suppressed. -/
theorem should_alert_threshold_gating_witness :
    shouldAlert chGate clMed (Option.some (str "high")) = false :=
  (should_alert_threshold_gating chGate clMed (str "high") (by decide) (by decide)).mpr
    (by decide)

/-- C6.  Priority selection: the classification's stated priority is
returned exactly on the trust path (confidence at least 0.7 and a valid
lower-cased priority); otherwise the keyword rules run over the
lower-cased combined text with tie-break high-unless-low, then medium,
then low, then a default by change type (pricing/compliance high,
changelog/news medium, else low). -/
theorem assign_priority_selection (change : ChangeRec) (cl : Classification) :
    (cl.confidence.getD 0 ≥ q0_7 → lowerStr (cl.priority.getD (str "medium")) ∈ validPriorities →
      assignPriority change cl = lowerStr (cl.priority.getD (str "medium")))
    ∧ (cl.confidence.getD 0 < q0_7 ∨ lowerStr (cl.priority.getD (str "medium")) ∉ validPriorities →
      assignPriority change cl = ruleBasedPriority change cl)
    ∧ (anyKeywordIn highPriorityKeywords (combinedText change cl) = true →
        anyKeywordIn lowPriorityKeywords (combinedText change cl) = false →
        ruleBasedPriority change cl = str "high")
    ∧ ((anyKeywordIn highPriorityKeywords (combinedText change cl) = false
        ∨ anyKeywordIn lowPriorityKeywords (combinedText change cl) = true) →
        anyKeywordIn mediumPriorityKeywords (combinedText change cl) = true →
        ruleBasedPriority change cl = str "medium")
    ∧ ((anyKeywordIn highPriorityKeywords (combinedText change cl) = false
        ∨ anyKeywordIn lowPriorityKeywords (combinedText change cl) = true) →
        anyKeywordIn mediumPriorityKeywords (combinedText change cl) = false →
        anyKeywordIn lowPriorityKeywords (combinedText change cl) = true →
        ruleBasedPriority change cl = str "low")
    ∧ (anyKeywordIn highPriorityKeywords (combinedText change cl) = false →
        anyKeywordIn mediumPriorityKeywords (combinedText change cl) = false →
        anyKeywordIn lowPriorityKeywords (combinedText change cl) = false →
        ruleBasedPriority change cl =
          (if effectiveChangeType change cl = str "pricing"
              ∨ effectiveChangeType change cl = str "compliance" then str "high"
           else if effectiveChangeType change cl = str "changelog"
              ∨ effectiveChangeType change cl = str "news" then str "medium"
           else str "low")) := by
  refine ⟨?_, ?_, ?_, ?_, ?_, ?_⟩
  · intro hc hv
    simp only [assignPriority, if_pos hc, if_pos hv]
  · intro h
    rcases h with h | h
    · simp only [assignPriority, if_neg (not_le.mpr h)]
    · by_cases hc : cl.confidence.getD 0 ≥ q0_7
      · simp only [assignPriority, if_pos hc, if_neg h]
      · simp only [assignPriority, if_neg hc]
  · intro hh hl
    simp only [ruleBasedPriority, hh, hl, Bool.not_false, Bool.and_self, if_true]
  · intro h hm
    have hcond : (anyKeywordIn highPriorityKeywords (combinedText change cl)
        && !anyKeywordIn lowPriorityKeywords (combinedText change cl)) = false := by
      rcases h with h | h <;> simp [h]
    simp only [ruleBasedPriority, hcond, Bool.false_eq_true, if_false, hm, if_true]
  · intro h hm hl
    simp only [ruleBasedPriority, hm, hl, Bool.not_true, Bool.and_false, Bool.false_eq_true,
      if_false, if_true]
  · intro hh hm hl
    simp only [ruleBasedPriority, hh, hm, hl, Bool.false_and, Bool.false_eq_true, if_false]

/-- Witness for C6 at a confident classification stating priority high. -/
theorem assign_priority_selection_witness : assignPriority chGate clHigh = str "high" := by
  have h := (assign_priority_selection chGate clHigh).1 (by decide) (by decide)
  exact h.trans (by decide)

/-- Counterexample to C9 as stated: at a failing service call (modelled by
an `error` outcome of the provider call), the degraded result does carry
the error marker and "medium" significance, but no rationale — the
`why_it_matters` key is absent. -/
theorem semantic_degraded_without_rationale :
    (analyzeChange (fun _ => Option.none) (Except.error (str "timeout"))
        (str "old") (str "new") (str "pricing") (str "u")).why_it_matters = Option.none
    ∧ (analyzeChange (fun _ => Option.none) (Except.error (str "timeout"))
        (str "old") (str "new") (str "pricing") (str "u")).error = Option.some (str "timeout")
    ∧ (analyzeChange (fun _ => Option.none) (Except.error (str "timeout"))
        (str "old") (str "new") (str "pricing") (str "u")).significance
        = Option.some (str "medium") :=
  ⟨rfl, rfl, rfl⟩

/-- C9 (amended: the degraded result has no rationale field).  Whenever
the service call fails, or the response fails to parse as JSON,
`analyze_change` returns, without raising, a degraded result with a generic
summary, change type "unknown", significance "medium" and an error
marker. -/
theorem semantic_degradation_shape (jsonParse : Str → Option Classification)
    (beforeContent afterContent assetType url : Str) :
    (∀ e, analyzeChange jsonParse (Except.error e) beforeContent afterContent assetType url =
      { priority := Option.none
        change_type := Option.some (str "unknown")
        summary := Option.some (str "Change detected on " ++ assetType ++ str " page")
        why_it_matters := Option.none
        significance := Option.some (str "medium")
        confidence := Option.none
        error := Option.some e })
    ∧ (∀ response, jsonParse (processResponseText response) = Option.none →
        analyzeChange jsonParse (Except.ok response) beforeContent afterContent assetType url =
        { priority := Option.none
          change_type := Option.some (str "unknown")
          summary := Option.some
            (if (processResponseText response).length > 200 then
              (processResponseText response).take 200 ++ str "..."
             else processResponseText response)
          why_it_matters := Option.none
          significance := Option.some (str "medium")
          confidence := Option.none
          error := Option.some (str "Failed to parse JSON response") }) := by
  constructor
  · intro e; rfl
  · intro response h
    simp only [analyzeChange, parseResponse, h]

/-- Witness for C9's amended statement at an unparsable response. -/
theorem semantic_degradation_shape_witness :
    analyzeChange (fun _ => Option.none) (Except.ok (str "oops"))
        (str "old") (str "new") (str "news") (str "u") =
      { priority := Option.none
        change_type := Option.some (str "unknown")
        summary := Option.some (str "oops")
        why_it_matters := Option.none
        significance := Option.some (str "medium")
        confidence := Option.none
        error := Option.some (str "Failed to parse JSON response") } := by
  have h := (semantic_degradation_shape (fun _ => Option.none)
    (str "old") (str "new") (str "news") (str "u")).2 (str "oops") rfl
  exact h.trans (by decide)

/-- C10.  The rule-based fallback classification always carries confidence
exactly 0.6, which clears the quality gate's 0.3 confidence floor and lies
below the 0.7 trust cutoff, so `assign_priority` on a fallback
classification always recomputes priority by the keyword rules. -/
theorem fallback_classification_confidence (fmtNum : ℚ → Str) (cd : ChangeData)
    (assetType : Str) (changeType : Option Str) (change : ChangeRec) :
    (ruleBasedClassificationStatic fmtNum cd assetType changeType).confidence
        = Option.some (6/10)
    ∧ q0_3 ≤ (ruleBasedClassificationStatic fmtNum cd assetType changeType).confidence.getD 0
    ∧ (ruleBasedClassificationStatic fmtNum cd assetType changeType).confidence.getD 0 < q0_7
    ∧ assignPriority change (ruleBasedClassificationStatic fmtNum cd assetType changeType)
        = ruleBasedPriority change (ruleBasedClassificationStatic fmtNum cd assetType changeType) := by
  have h6 : q0_6 = 6/10 := by
    rw [q0_6, Rat.mk'_eq_divInt, Rat.divInt_eq_div]; norm_num
  have h3 : q0_3 = 3/10 := by
    rw [q0_3, Rat.mk'_eq_divInt, Rat.divInt_eq_div]; norm_num
  have h7 : q0_7 = 7/10 := by
    rw [q0_7, Rat.mk'_eq_divInt, Rat.divInt_eq_div]; norm_num
  have hconf : (ruleBasedClassificationStatic fmtNum cd assetType changeType).confidence
      = Option.some q0_6 := rfl
  refine ⟨by rw [hconf, h6], by rw [hconf]; simp only [Option.getD_some]; rw [h3, h6]; norm_num,
    by rw [hconf]; simp only [Option.getD_some]; rw [h7, h6]; norm_num, ?_⟩
  have hlt : ¬ ((ruleBasedClassificationStatic fmtNum cd assetType changeType).confidence.getD 0
      ≥ q0_7) := by
    rw [hconf]
    simp only [Option.getD_some]
    rw [h6, h7]
    norm_num
  simp only [assignPriority, if_neg hlt]

/-- C1.  Idempotent detection: when a change row already points at the
most recent snapshot of the asset, `detect_changes_for_asset` returns the
empty list and leaves the store unchanged; and one detection run preserves
the at-most-one-change-per-after-snapshot invariant, since a change is
only inserted after the existing-change check came back empty. -/
theorem detect_changes_idempotent (env : DetEnv) (store : Store) (asset : AssetRec) :
    (∀ snapshotAfter rest,
        sortByTsDesc (store.snapshots.filter (fun sn => sn.asset_id == asset.id))
          = snapshotAfter :: rest →
        (∃ c ∈ store.changes, c.snapshot_after_id = snapshotAfter.id) →
        detectChangesForAsset env store asset = ([], store))
    ∧ (AtMostOnePerAfter store.changes →
        AtMostOnePerAfter (detectChangesForAsset env store asset).2.changes) := by
  have pairInv : ∀ a snapshotBefore snapshotAfter, AtMostOnePerAfter store.changes →
      AtMostOnePerAfter (detectOnPair env store a snapshotBefore snapshotAfter).2.changes := by
    intro a snapshotBefore snapshotAfter hinv
    unfold detectOnPair
    cases hfind : store.changes.find?
        (fun c => c.snapshot_after_id == snapshotAfter.id) with
    | some c =>
      rw [if_pos (show (Option.some c).isSome = true from rfl)]
      exact hinv
    | none =>
      rw [if_neg (by simp)]
      have hfree : ∀ c ∈ store.changes, c.snapshot_after_id ≠ snapshotAfter.id := by
        intro c hc
        have h := List.find?_eq_none.mp hfind c hc
        simpa using h
      have happend : ∀ sem : Option Classification, ∀ cd, AtMostOnePerAfter
          (persistChange env store a snapshotBefore snapshotAfter cd sem).2.changes := by
        intro sem cd
        show AtMostOnePerAfter (store.changes
          ++ [createChangeRecord env store a snapshotBefore snapshotAfter cd sem])
        unfold AtMostOnePerAfter
        rw [List.pairwise_append]
        refine ⟨hinv, List.pairwise_singleton _ _, ?_⟩
        intro c1 hc1 c2 hc2
        rw [List.mem_singleton] at hc2
        subst hc2
        exact hfree c1 hc1
      cases hcmp : compareSnapshots env a.asset_type snapshotBefore snapshotAfter with
      | none => exact hinv
      | some cd =>
        show AtMostOnePerAfter
          (detectWithEvidence env store a snapshotBefore snapshotAfter cd).2.changes
        unfold detectWithEvidence
        cases hsig : isSignificantChange cd 5 with
        | false => rw [if_pos (show (!false) = true from rfl)]; exact hinv
        | true =>
          rw [if_neg (by simp)]
          cases hso : semanticOutcomeFor env a snapshotBefore snapshotAfter with
          | ok sem =>
            show AtMostOnePerAfter (if filterNoise cd sem = true then (([] : List ChangeRec), store)
              else persistChange env store a snapshotBefore snapshotAfter cd
                (Option.some sem)).2.changes
            cases hnoise : filterNoise cd sem with
            | true => rw [if_pos rfl]; exact hinv
            | false => rw [if_neg (by simp)]; exact happend (Option.some sem) cd
          | error e => exact happend Option.none cd
  constructor
  · intro snapshotAfter rest hsort hex
    unfold detectChangesForAsset
    cases hfa : store.assets.find? (fun a => a.id == asset.id) with
    | none => rfl
    | some a =>
      have haid : a.id = asset.id := by
        have h := List.find?_some hfa
        simpa using h
      show detectForReloaded env store a = ([], store)
      unfold detectForReloaded
      rw [haid, hsort]
      cases rest with
      | nil => rfl
      | cons snapshotBefore rest' =>
        show detectOnPair env store a snapshotBefore snapshotAfter = ([], store)
        have hfind : (store.changes.find?
            (fun c => c.snapshot_after_id == snapshotAfter.id)).isSome = true := by
          obtain ⟨c0, hc0m, hc0⟩ := hex
          cases hf : store.changes.find? (fun c => c.snapshot_after_id == snapshotAfter.id) with
          | some c => rfl
          | none =>
            exfalso
            have h := List.find?_eq_none.mp hf c0 hc0m
            simp [hc0] at h
        unfold detectOnPair
        rw [if_pos hfind]
  · intro hinv
    unfold detectChangesForAsset
    cases hfa : store.assets.find? (fun a => a.id == asset.id) with
    | none => exact hinv
    | some a =>
      show AtMostOnePerAfter (detectForReloaded env store a).2.changes
      unfold detectForReloaded
      cases htake : (sortByTsDesc (store.snapshots.filter
          (fun sn => sn.asset_id == a.id))).take 2 with
      | nil => exact hinv
      | cons x xs =>
        cases xs with
        | nil => exact hinv
        | cons y ys =>
          cases ys with
          | cons z zs => exact hinv
          | nil => exact pairInv a y x hinv

/-- Witness for C1 at a store whose latest snapshot pair already has a
change row. -/
theorem detect_changes_idempotent_witness :
    detectChangesForAsset envW storeW assetW = ([], storeW)
    ∧ AtMostOnePerAfter (detectChangesForAsset envW storeW assetW).2.changes := by
  have h := detect_changes_idempotent envW storeW assetW
  refine ⟨h.1 snapNew [snapOld] rfl ⟨changeW, List.mem_cons_self _ _, rfl⟩, ?_⟩
  exact h.2 (by simp [AtMostOnePerAfter, storeW])

/-- Every change selected by `get_pending_alerts` is unsent and
classified: the sweeps and `process_pending_alerts`, which reach Slack
only through this query, never see an already-delivered change. -/
theorem getPendingAlerts_unsent (store : AlertStore) (priority : Option Str)
    (since : Option Nat) :
    ∀ c ∈ getPendingAlerts store priority since,
      c.alert_sent = false ∧ c.priority ≠ Option.none := by
  intro c hc
  simp only [getPendingAlerts, List.mem_filter, Bool.and_eq_true, beq_iff_eq,
    Option.isSome_iff_ne_none] at hc
  exact ⟨hc.2.1.1.1.1, hc.2.1.1.1.2⟩

/-- C2 is refuted by the code: `send_immediate_alert` checks only the
priority, never `alert_sent`, so re-invoking the immediate path on the
already-delivered high-priority change `chB` (sent at time 5) transmits a
second payload, appends a second Alert row, and overwrites the sent
timestamp with the new clock 9 — although the sweep/router query
`get_pending_alerts` correctly skips the change. -/
theorem send_immediate_resends_delivered_change :
    (sendImmediateAlert envB storeB chB).1 = true
    ∧ ((sendImmediateAlert envB storeB chB).2.2).length = 1
    ∧ ((sendImmediateAlert envB storeB chB).2.1).alerts.length = 2
    ∧ ((sendImmediateAlert envB storeB chB).2.1).changes.map ChangeRec.alert_sent_at
        = [Option.some 9]
    ∧ chB.alert_sent = true
    ∧ chB.alert_sent_at = Option.some 5
    ∧ getPendingAlerts storeB (Option.some (str "high")) Option.none = [] :=
  ⟨rfl, rfl, rfl, rfl, rfl, rfl, rfl⟩

end Watchdog
